import Mathlib

/-!
Shallow embedding of the BrainPlay question/score engine
(`src/score.py` and `src/questions.py`).

Modelling conventions:
* Python `int` is `ℤ`; Python `float` values are exact rationals `ℚ`
  (the numeric literals `0.6`, `1.5`, `0.01` become `3/5`, `3/2`, `1/100`).
* Python `int(x)` applied to a float truncates toward zero: `pyInt`.
* Randomness is passed explicitly: `random.randint` / `random.choice`
  become functions of a `seed : ℕ` argument.
* The network enrichment lookup `SquareGenerator._get_number_fact` is
  passed as an `Option String` argument (`none` models timeout, non-200
  status or network failure, all of which the source absorbs).
* Timestamps, logging, printing and JSON persistence are not modelled; a
  fresh `ScoreManager` (no persisted prior state) starts from zeros.
-/

/-- One entry of `ScoreManager._score_history` (`src/score.py`,
`add_points`).  The `timestamp` field of the source is real time and is
not modelled. -/
structure HistoryEntry where
  round : ℕ
  points_added : ℤ
  old_score : ℤ
  new_score : ℤ
deriving DecidableEq

/-- State of a `ScoreManager` (`src/score.py`): per-player score,
counters, history and unlocked achievements.  The score file and the
`_game_start_time` field are not modelled. -/
structure ScoreManager where
  player_id : String
  score : ℤ
  round_count : ℕ
  correct_answers : ℕ
  wrong_answers : ℕ
  score_history : List HistoryEntry
  achievements : List String
deriving DecidableEq

/-- A fresh `ScoreManager(player_id)` with no persisted prior state: all
counters zero, empty history and achievements (`ScoreManager.__init__`
when `_load_score` finds no matching file). -/
def ScoreManager.init (player_id : String) : ScoreManager :=
  { player_id := player_id, score := 0, round_count := 0, correct_answers := 0,
    wrong_answers := 0, score_history := [], achievements := [] }

/-- The `ScoreManager.accuracy` property: percentage of correct answers,
`0.0` when no rounds were played. -/
def ScoreManager.accuracy (m : ScoreManager) : ℚ :=
  if m.correct_answers + m.wrong_answers = 0 then 0
  else ((m.correct_answers : ℚ) / ((m.correct_answers + m.wrong_answers : ℕ) : ℚ)) * 100

/-- The six achievement conditions tested by
`ScoreManager._check_achievements`, paired with the achievement names,
in source order. -/
def achievementChecks (m : ScoreManager) : List (String × Bool) :=
  [("First Points", decide (10 ≤ m.score)),
   ("Half Century", decide (50 ≤ m.score)),
   ("Century", decide (100 ≤ m.score)),
   ("Perfect Start", decide (5 ≤ m.round_count) && decide (m.accuracy = 100)),
   ("Sharp Shooter", decide (10 ≤ m.round_count) && decide ((90 : ℚ) ≤ m.accuracy)),
   ("Hot Streak", decide (5 ≤ m.score_history.length) &&
      (m.score_history.drop (m.score_history.length - 5)).all
        (fun e => decide (0 < e.points_added)))]

/-- `ScoreManager._check_achievements`: collect every achievement whose
condition holds and whose name is not already unlocked, in source order,
and append them to the unlocked list. -/
def ScoreManager.check_achievements (m : ScoreManager) : ScoreManager :=
  let new_achievements :=
    ((achievementChecks m).filter
      (fun p => p.2 && !(decide (p.1 ∈ m.achievements)))).map Prod.fst
  { m with achievements := m.achievements ++ new_achievements }

/-- The body of `ScoreManager.add_points` after its `isinstance` check
has passed: update score, round count, correct/wrong counters, append
the history record, then re-evaluate achievements (`_save_score` is
persistence only and is not modelled). -/
def ScoreManager.add_points_int (m : ScoreManager) (points : ℤ) : ScoreManager :=
  ScoreManager.check_achievements
    { m with
      score := m.score + points,
      round_count := m.round_count + 1,
      correct_answers := if 0 < points then m.correct_answers + 1 else m.correct_answers,
      wrong_answers := if 0 < points then m.wrong_answers else m.wrong_answers + 1,
      score_history := m.score_history ++
        [{ round := m.round_count + 1, points_added := points,
           old_score := m.score, new_score := m.score + points }] }

/-- A dynamically typed Python value passed to `add_points` (the source
accepts any object and checks `isinstance(points, int)`). -/
inductive PyValue where
  | int (n : ℤ)
  | float (q : ℚ)
  | str (s : String)
deriving DecidableEq

/-- Whether a Python value is an `int`. -/
def PyValue.isInt : PyValue → Bool
  | .int _ => true
  | _ => false

/-- `ScoreManager.add_points`: reject a non-integer delta with
`TypeError("Points must be an integer")` before touching any state;
otherwise perform the update.  `Except.error` models the raise: no new
state is produced and the caller still holds the unchanged manager. -/
def ScoreManager.add_points (m : ScoreManager) (points : PyValue) :
    Except String ScoreManager :=
  match points with
  | .int n => .ok (m.add_points_int n)
  | _ => .error "Points must be an integer"

/-- `ScoreManager.get_score`. -/
def ScoreManager.get_score (m : ScoreManager) : ℤ := m.score

/-- A fresh manager for `player_id` after a finite sequence of
successful `add_points` calls with the given integer deltas. -/
def runDeltas (player_id : String) (ds : List ℤ) : ScoreManager :=
  ds.foldl ScoreManager.add_points_int (ScoreManager.init player_id)

/-- `QuestionResult` (`src/questions.py`): question text, canonical
answer, question type and difficulty.  Both generators produce integer
numeric answers, modelled as exact rationals (the numeric side of the
source's `Union[int, float, str]`). -/
structure QuestionResult where
  text : String
  answer : ℚ
  question_type : String
  difficulty : String
deriving DecidableEq

/-- `QuestionResult.check_answer` for a numeric canonical answer.
`parsed` is the outcome of Python `float(user_answer)`: `some p` when
the input parses to the value `p`, `none` when parsing raises
`ValueError` (the source catches it and returns `False`).  Comparison
uses the fixed absolute tolerance `0.01` with strict inequality. -/
def QuestionResult.check_answer (q : QuestionResult) (parsed : Option ℚ) : Bool :=
  match parsed with
  | some user_numeric => decide (|user_numeric - q.answer| < 1 / 100)
  | none => false

/-- Python `int(x)` applied to a (here exact-rational) float: truncation
toward zero. -/
def pyInt (q : ℚ) : ℤ := if 0 ≤ q then ⌊q⌋ else ⌈q⌉

/-- `QuestionGenerator._adjust_for_difficulty`: easy caps the max at
`min(max_val, int(max_val * 0.6))`, hard raises it to
`int(max_val * 1.5)`, any other difficulty string returns the base
range unchanged. -/
def adjust_for_difficulty (difficulty : String) (base_range : ℤ × ℤ) : ℤ × ℤ :=
  if difficulty = "easy" then
    (base_range.1, min base_range.2 (pyInt ((base_range.2 : ℚ) * (3 / 5))))
  else if difficulty = "hard" then
    (base_range.1, pyInt ((base_range.2 : ℚ) * (3 / 2)))
  else base_range

/-- The `difficulty_multiplier` looked up in `QuestionGenerator.__init__`
(`{"easy": 0.5, "normal": 1.0, "hard": 1.5}.get(difficulty, 1.0)`). -/
def difficulty_multiplier (difficulty : String) : ℚ :=
  if difficulty = "easy" then 1 / 2
  else if difficulty = "normal" then 1
  else if difficulty = "hard" then 3 / 2
  else 1

/-- `SquareRootGenerator._generate_perfect_squares`: the perfect squares
`i ** 2` for `i` in `1..10` (easy), `1..100` (hard) and `1..50` (any
other difficulty), fixed at generator construction. -/
def perfect_squares (difficulty : String) : List ℕ :=
  if difficulty = "easy" then (List.range' 1 10).map (fun i => i ^ 2)
  else if difficulty = "hard" then (List.range' 1 100).map (fun i => i ^ 2)
  else (List.range' 1 50).map (fun i => i ^ 2)

/-- `SquareRootGenerator.generate`: pick a perfect square from the
precomputed list (`random.choice` modelled by the index `seed` modulo
the list length); the answer is `int(math.sqrt(perfect_square))`, which
is exact on these perfect squares and modelled by `Nat.sqrt`. -/
def squareRootGenerate (difficulty : String) (seed : ℕ) : QuestionResult :=
  let sqs := perfect_squares difficulty
  let perfect_square := sqs.getD (seed % sqs.length) 0
  let square_root := Nat.sqrt perfect_square
  { text := "What is √" ++ toString perfect_square ++
      "? (What is the square root of " ++ toString perfect_square ++ "?)",
    answer := (square_root : ℚ),
    question_type := "square_root",
    difficulty := difficulty }

/-- `random.randint(lo, hi)` (inclusive bounds) modelled by a `seed`:
`lo + seed % (hi - lo + 1)`, which ranges over `[lo, hi]` whenever
`lo ≤ hi`. -/
def randint (lo hi : ℤ) (seed : ℕ) : ℤ :=
  lo + ((seed % (hi - lo + 1).toNat : ℕ) : ℤ)

/-- `SquareGenerator.generate`: draw `base_number` in the
difficulty-adjusted `(1, 20)` range and answer `base_number ** 2`; the
enrichment fact returned by `_get_number_fact` (`none` on timeout,
non-200 status or network error) only extends the question text. -/
def squareGenerate (difficulty : String) (seed : ℕ)
    (fun_fact : Option String) : QuestionResult :=
  let r := adjust_for_difficulty difficulty (1, 20)
  let base_number := randint r.1 r.2 seed
  let square_result := base_number ^ 2
  { text := "What is " ++ toString base_number ++ "²? (What is " ++
        toString base_number ++ " squared?)" ++
      (match fun_fact with
       | some fact => " Hint: " ++ fact
       | none => ""),
    answer := (square_result : ℚ),
    question_type := "square",
    difficulty := difficulty }

/-- The configured question types: the keys of
`QuestionFactory.generators` (returned by `get_available_types`). -/
def available_types : List String := ["square", "square_root"]

/-- An ASCII single-quote character, used by the Python `repr` of the
list of valid types inside the unknown-type error message. -/
def quoteChar : String := String.singleton (Char.ofNat 39)

/-- The `ValueError` message of `create_specific_question` for an
unknown type, exactly as formatted by the source:
`Unknown question type: {question_type}. Available types:` followed by
the Python repr of `["square", "square_root"]`. -/
def unknown_type_message (question_type : String) : String :=
  "Unknown question type: " ++ question_type ++ ". Available types: [" ++
    quoteChar ++ "square" ++ quoteChar ++ ", " ++
    quoteChar ++ "square_root" ++ quoteChar ++ "]"

/-- `QuestionFactory.create_specific_question`: dispatch directly to the
generator registered for `question_type` (no weighted selection), or
raise `ValueError` naming the valid types. -/
def create_specific_question (question_type difficulty : String) (seed : ℕ)
    (fun_fact : Option String) : Except String QuestionResult :=
  if question_type ∉ available_types then
    .error (unknown_type_message question_type)
  else if question_type = "square" then
    .ok (squareGenerate difficulty seed fun_fact)
  else
    .ok (squareRootGenerate difficulty seed)

theorem check_achievements_score (m : ScoreManager) :
    m.check_achievements.score = m.score := rfl

theorem check_achievements_round_count (m : ScoreManager) :
    m.check_achievements.round_count = m.round_count := rfl

theorem check_achievements_score_history (m : ScoreManager) :
    m.check_achievements.score_history = m.score_history := rfl

theorem add_points_int_score (m : ScoreManager) (p : ℤ) :
    (m.add_points_int p).score = m.score + p := rfl

theorem add_points_int_round_count (m : ScoreManager) (p : ℤ) :
    (m.add_points_int p).round_count = m.round_count + 1 := rfl

theorem add_points_int_score_history (m : ScoreManager) (p : ℤ) :
    (m.add_points_int p).score_history = m.score_history ++
      [{ round := m.round_count + 1, points_added := p,
         old_score := m.score, new_score := m.score + p }] := rfl

theorem add_points_int_correct_answers (m : ScoreManager) (p : ℤ) :
    (m.add_points_int p).correct_answers =
      if 0 < p then m.correct_answers + 1 else m.correct_answers := rfl

theorem add_points_int_wrong_answers (m : ScoreManager) (p : ℤ) :
    (m.add_points_int p).wrong_answers =
      if 0 < p then m.wrong_answers else m.wrong_answers + 1 := rfl

theorem foldl_add_points_score (ds : List ℤ) (m : ScoreManager) :
    (ds.foldl ScoreManager.add_points_int m).score = m.score + ds.sum := by
  induction ds generalizing m with
  | nil => simp
  | cons d t ih =>
      simp only [List.foldl_cons, ih, add_points_int_score, List.sum_cons]
      ring

theorem foldl_add_points_round_count (ds : List ℤ) (m : ScoreManager) :
    (ds.foldl ScoreManager.add_points_int m).round_count =
      m.round_count + ds.length := by
  induction ds generalizing m with
  | nil => simp
  | cons d t ih =>
      simp only [List.foldl_cons, ih, add_points_int_round_count, List.length_cons]
      omega

theorem foldl_add_points_counts (ds : List ℤ) (m : ScoreManager) :
    (ds.foldl ScoreManager.add_points_int m).correct_answers +
      (ds.foldl ScoreManager.add_points_int m).wrong_answers =
      m.correct_answers + m.wrong_answers + ds.length := by
  induction ds generalizing m with
  | nil => simp
  | cons d t ih =>
      simp only [List.foldl_cons, ih, add_points_int_correct_answers,
        add_points_int_wrong_answers, List.length_cons]
      split <;> omega

theorem foldl_add_points_history_length (ds : List ℤ) (m : ScoreManager) :
    (ds.foldl ScoreManager.add_points_int m).score_history.length =
      m.score_history.length + ds.length := by
  induction ds generalizing m with
  | nil => simp
  | cons d t ih =>
      simp only [List.foldl_cons, ih, add_points_int_score_history,
        List.length_append, List.length_cons, List.length_nil]
      omega

theorem foldl_add_points_history_sound (ds : List ℤ) (m : ScoreManager)
    (h : ∀ e ∈ m.score_history, e.new_score = e.old_score + e.points_added) :
    ∀ e ∈ (ds.foldl ScoreManager.add_points_int m).score_history,
      e.new_score = e.old_score + e.points_added := by
  induction ds generalizing m with
  | nil => exact h
  | cons d t ih =>
      refine ih _ ?_
      intro e he
      rw [add_points_int_score_history, List.mem_append] at he
      rcases he with he | he
      · exact h e he
      · simp only [List.mem_singleton] at he
        subst he
        rfl

/-- Claim C1: starting from a fresh `ScoreManager` (no persisted prior
state), after any finite sequence of successful `add_points` calls,
`get_score()` is the sum of the deltas, `round_count` is the number of
calls, `round_count = correct_answers + wrong_answers = ` the length of
the score history, and every appended history record satisfies
`new_score = old_score + points_added`. -/
theorem claim_C1 (player_id : String) (ds : List ℤ) :
    (runDeltas player_id ds).get_score = ds.sum ∧
    (runDeltas player_id ds).round_count = ds.length ∧
    (runDeltas player_id ds).round_count =
      (runDeltas player_id ds).correct_answers + (runDeltas player_id ds).wrong_answers ∧
    (runDeltas player_id ds).correct_answers + (runDeltas player_id ds).wrong_answers =
      (runDeltas player_id ds).score_history.length ∧
    ∀ e ∈ (runDeltas player_id ds).score_history,
      e.new_score = e.old_score + e.points_added := by
  refine ⟨?_, ?_, ?_, ?_, ?_⟩
  · show (runDeltas player_id ds).score = ds.sum
    rw [runDeltas, foldl_add_points_score]
    simp [ScoreManager.init]
  · rw [runDeltas, foldl_add_points_round_count]
    simp [ScoreManager.init]
  · rw [runDeltas, foldl_add_points_round_count, foldl_add_points_counts]
    simp [ScoreManager.init]
  · rw [runDeltas, foldl_add_points_counts, foldl_add_points_history_length]
    simp [ScoreManager.init]
  · exact foldl_add_points_history_sound ds _ (by simp [ScoreManager.init])

/-- Claim C8: `add_points` classifies a round as correct exactly when
the delta is strictly positive: the correct counter is incremented iff
`0 < delta`, and otherwise (including `delta = 0`) the wrong counter is
incremented and the correct counter is unchanged. -/
theorem claim_C8 (m : ScoreManager) (n : ℤ) :
    (m.add_points_int n).correct_answers =
      m.correct_answers + (if 0 < n then 1 else 0) ∧
    (m.add_points_int n).wrong_answers =
      m.wrong_answers + (if 0 < n then 0 else 1) := by
  rw [add_points_int_correct_answers, add_points_int_wrong_answers]
  constructor <;> split <;> omega

/-- Claim C4: `add_points` rejects every non-integer delta (floats
included, even numerically whole ones) with
`TypeError("Points must be an integer")`, raised before a single field
of the manager is written, so the caller's state is exactly as before
the call. -/
theorem claim_C4 (m : ScoreManager) (v : PyValue) (h : v.isInt = false) :
    m.add_points v = Except.error "Points must be an integer" := by
  cases v with
  | int n => simp [PyValue.isInt] at h
  | float q => rfl
  | str s => rfl

/-- Witness for C4 at the whole float `5.0` of the claim. -/
theorem claim_C4_witness :
    (PyValue.float 5).isInt = false ∧
    (ScoreManager.init "p").add_points (PyValue.float 5) =
      Except.error "Points must be an integer" :=
  ⟨rfl, claim_C4 (ScoreManager.init "p") (PyValue.float 5) rfl⟩

theorem achievementChecks_check (m : ScoreManager) :
    achievementChecks m.check_achievements = achievementChecks m := rfl

theorem achievementChecks_names (m : ScoreManager) :
    (achievementChecks m).map Prod.fst =
      ["First Points", "Half Century", "Century", "Perfect Start",
       "Sharp Shooter", "Hot Streak"] := rfl

theorem achievementChecks_inj (m : ScoreManager) :
    ∀ p ∈ achievementChecks m, ∀ q ∈ achievementChecks m, p.1 = q.1 → p = q := by
  intro p hp q hq hpq
  simp only [achievementChecks, List.mem_cons, List.not_mem_nil, or_false] at hp hq
  rcases hp with rfl | rfl | rfl | rfl | rfl | rfl <;>
    rcases hq with rfl | rfl | rfl | rfl | rfl | rfl <;> simp_all

theorem check_achievements_achievements (m : ScoreManager) :
    m.check_achievements.achievements = m.achievements ++
      ((achievementChecks m).filter
        (fun p => p.2 && !(decide (p.1 ∈ m.achievements)))).map Prod.fst := rfl

theorem mem_check_achievements_iff (m : ScoreManager) (p : String × Bool)
    (hp : p ∈ achievementChecks m) :
    p.1 ∈ m.check_achievements.achievements ↔
      p.1 ∈ m.achievements ∨ p.2 = true := by
  rw [check_achievements_achievements, List.mem_append]
  constructor
  · rintro (h | h)
    · exact Or.inl h
    · rcases List.mem_map.1 h with ⟨q, hq, hq1⟩
      rcases List.mem_filter.1 hq with ⟨hqmem, hqpred⟩
      rcases achievementChecks_inj m q hqmem p hp hq1
      rw [Bool.and_eq_true] at hqpred
      exact Or.inr hqpred.1
  · rintro (h | h)
    · exact Or.inl h
    · by_cases hmem : p.1 ∈ m.achievements
      · exact Or.inl hmem
      · refine Or.inr (List.mem_map.2 ⟨p, List.mem_filter.2 ⟨hp, ?_⟩, rfl⟩)
        simp [h, hmem]

theorem check_achievements_idem (m : ScoreManager) :
    m.check_achievements.check_achievements = m.check_achievements := by
  have hnil : ((achievementChecks m.check_achievements).filter
      (fun p => p.2 && !(decide (p.1 ∈ m.check_achievements.achievements)))) = [] := by
    rw [List.filter_eq_nil_iff]
    intro p hp
    rw [achievementChecks_check] at hp
    simp only [Bool.and_eq_true, Bool.not_eq_true', decide_eq_false_iff_not, not_and,
      Decidable.not_not]
    intro h2
    exact (mem_check_achievements_iff m p hp).2 (Or.inr h2)
  show ({ m.check_achievements with
      achievements := m.check_achievements.achievements ++
        ((achievementChecks m.check_achievements).filter
          (fun p => p.2 && !(decide (p.1 ∈ m.check_achievements.achievements)))).map
            Prod.fst } : ScoreManager) = m.check_achievements
  rw [hnil, List.map_nil, List.append_nil]

/-- Claim C3: achievement evaluation adds exactly the achievements whose
condition holds on the current state (score thresholds 10/50/100 for
First Points / Half Century / Century, the two accuracy conditions, and
the Hot Streak condition on the five most recent deltas, as listed in
`achievementChecks`): afterwards a name is unlocked iff it was already
unlocked or its condition holds; a name already unlocked is never added
again (the unlocked list stays duplicate-free); and re-running the
evaluation on the same state changes nothing (no achievement is removed
or duplicated). -/
theorem claim_C3 (m : ScoreManager) (h : m.achievements.Nodup) :
    (∀ p ∈ achievementChecks m,
       (p.1 ∈ m.check_achievements.achievements ↔
         p.1 ∈ m.achievements ∨ p.2 = true)) ∧
    m.check_achievements.achievements.Nodup ∧
    m.check_achievements.check_achievements = m.check_achievements := by
  refine ⟨fun p hp => mem_check_achievements_iff m p hp, ?_, check_achievements_idem m⟩
  rw [check_achievements_achievements, List.nodup_append]
  refine ⟨h, ?_, ?_⟩
  · exact ((List.filter_sublist _).map Prod.fst).nodup
      (by rw [achievementChecks_names]; decide)
  · intro a ha hmem
    rcases List.mem_map.1 hmem with ⟨q, hq, rfl⟩
    rcases List.mem_filter.1 hq with ⟨_, hpred⟩
    rw [Bool.and_eq_true] at hpred
    have hnot := hpred.2
    rw [Bool.not_eq_true', decide_eq_false_iff_not] at hnot
    exact hnot ha

/-- Witness for C3 at a fresh manager (empty, duplicate-free unlocked
list). -/
theorem claim_C3_witness :
    (ScoreManager.init "p").achievements.Nodup ∧
    (ScoreManager.init "p").check_achievements.check_achievements =
      (ScoreManager.init "p").check_achievements :=
  ⟨by simp [ScoreManager.init],
   (claim_C3 (ScoreManager.init "p") (by simp [ScoreManager.init])).2.2⟩

/-- Claim C2: for a numeric canonical answer, `check_answer` returns
true iff the input parses to a value within strict absolute tolerance
`0.01` of the answer, returns false (without raising) when the input
does not parse, and in particular accepts `answer + 0.009` and rejects
`answer + 0.02`. -/
theorem claim_C2 (q : QuestionResult) (p : ℚ) :
    (q.check_answer (some p) = true ↔ |p - q.answer| < 1 / 100) ∧
    q.check_answer none = false ∧
    q.check_answer (some (q.answer + 9 / 1000)) = true ∧
    q.check_answer (some (q.answer + 2 / 100)) = false := by
  refine ⟨by simp [QuestionResult.check_answer], rfl, ?_, ?_⟩
  · simp only [QuestionResult.check_answer, decide_eq_true_eq]
    rw [add_sub_cancel_left, abs_of_nonneg (by norm_num)]
    norm_num
  · simp only [QuestionResult.check_answer, decide_eq_false_iff_not]
    rw [add_sub_cancel_left, abs_of_nonneg (by norm_num)]
    norm_num

theorem pyInt_of_nonneg {q : ℚ} (h : 0 ≤ q) : pyInt q = ⌊q⌋ := if_pos h

theorem perfect_squares_shape (d : String) :
    ∃ k, 0 < k ∧ perfect_squares d = (List.range' 1 k).map (fun i => i ^ 2) := by
  by_cases h1 : d = "easy"
  · exact ⟨10, by norm_num, by simp [perfect_squares, h1]⟩
  by_cases h2 : d = "hard"
  · exact ⟨100, by norm_num, by simp [perfect_squares, h1, h2]⟩
  exact ⟨50, by norm_num, by simp [perfect_squares, h1, h2]⟩

/-- Claim C5: the precomputed perfect-square lists are exactly
`i * i` for `i` in `1..10` (easy), `1..50` (normal), `1..100` (hard),
and every question drawn by `SquareRootGenerator` has question type
`"square_root"` and an integer answer `a` with `a * a` equal to the
perfect square selected from the precomputed list. -/
theorem claim_C5 :
    perfect_squares "easy" = (List.range' 1 10).map (fun i => i * i) ∧
    perfect_squares "normal" = (List.range' 1 50).map (fun i => i * i) ∧
    perfect_squares "hard" = (List.range' 1 100).map (fun i => i * i) ∧
    ∀ (d : String) (seed : ℕ),
      (squareRootGenerate d seed).question_type = "square_root" ∧
      ∃ a : ℕ, (squareRootGenerate d seed).answer = (a : ℚ) ∧
        a * a = (perfect_squares d).getD (seed % (perfect_squares d).length) 0 ∧
        (perfect_squares d).getD (seed % (perfect_squares d).length) 0 ∈
          perfect_squares d := by
  refine ⟨by simp [perfect_squares, pow_two], by simp [perfect_squares, pow_two],
    by simp [perfect_squares, pow_two], ?_⟩
  intro d seed
  obtain ⟨k, hk, hshape⟩ := perfect_squares_shape d
  have hlen : (perfect_squares d).length = k := by
    rw [hshape, List.length_map, List.length_range']
  have hidx : seed % (perfect_squares d).length < (perfect_squares d).length := by
    rw [hlen]
    exact Nat.mod_lt _ hk
  have hmem : (perfect_squares d).getD (seed % (perfect_squares d).length) 0 ∈
      perfect_squares d := by
    rw [List.getD_eq_getElem _ 0 hidx]
    exact List.getElem_mem hidx
  have hsq : ∃ i, (perfect_squares d).getD (seed % (perfect_squares d).length) 0
      = i ^ 2 := by
    obtain ⟨s, hs⟩ : ∃ s, (perfect_squares d).getD
        (seed % (perfect_squares d).length) 0 = s := ⟨_, rfl⟩
    have hm : s ∈ perfect_squares d := hs ▸ hmem
    rw [hshape] at hm
    rcases List.mem_map.1 hm with ⟨i, _, hi⟩
    exact ⟨i, hs.trans hi.symm⟩
  rcases hsq with ⟨i, hi⟩
  refine ⟨rfl, i, ?_, ?_, hmem⟩
  · show ((Nat.sqrt ((perfect_squares d).getD
        (seed % (perfect_squares d).length) 0) : ℕ) : ℚ) = (i : ℚ)
    rw [hi, Nat.sqrt_eq']
  · rw [hi, pow_two]

theorem adjust_easy_base : adjust_for_difficulty "easy" (1, 20) = (1, 12) := by
  have h : pyInt ((20 : ℚ) * (3 / 5)) = 12 := by
    rw [pyInt, if_pos (by norm_num), Int.floor_eq_iff]
    norm_num
  simp [adjust_for_difficulty, h]

theorem adjust_hard_base : adjust_for_difficulty "hard" (1, 20) = (1, 30) := by
  have h : pyInt ((20 : ℚ) * (3 / 2)) = 30 := by
    rw [pyInt, if_pos (by norm_num), Int.floor_eq_iff]
    norm_num
  simp [adjust_for_difficulty, h]

theorem adjust_other (d : String) (h1 : d ≠ "easy") (h2 : d ≠ "hard")
    (base_range : ℤ × ℤ) :
    adjust_for_difficulty d base_range = base_range := by
  simp [adjust_for_difficulty, h1, h2]

theorem randint_mem (lo hi : ℤ) (seed : ℕ) (h : lo ≤ hi) :
    lo ≤ randint lo hi seed ∧ randint lo hi seed ≤ hi := by
  have hpos : 0 < (hi - lo + 1).toNat := by omega
  have hlt : seed % (hi - lo + 1).toNat < (hi - lo + 1).toNat := Nat.mod_lt _ hpos
  rw [randint]
  omega

/-- Claim C6: every question from `SquareGenerator` has question type
`"square"` and answer `n * n` for the integer `n` drawn from the
difficulty-adjusted `(1, 20)` range, and this holds for every outcome of
the enrichment lookup — with the fact missing (`none`, covering timeout,
non-200 status and network error) the question is produced just the
same, with the same answer. -/
theorem claim_C6 (d : String) (seed : ℕ) (fun_fact : Option String) :
    (squareGenerate d seed fun_fact).question_type = "square" ∧
    (∃ n : ℤ, (adjust_for_difficulty d (1, 20)).1 ≤ n ∧
       n ≤ (adjust_for_difficulty d (1, 20)).2 ∧
       (squareGenerate d seed fun_fact).answer = ((n * n : ℤ) : ℚ)) ∧
    (squareGenerate d seed fun_fact).answer = (squareGenerate d seed none).answer := by
  refine ⟨rfl, ?_, rfl⟩
  have hle : (adjust_for_difficulty d (1, 20)).1 ≤ (adjust_for_difficulty d (1, 20)).2 := by
    by_cases h1 : d = "easy"
    · rw [h1, adjust_easy_base]
      decide
    by_cases h2 : d = "hard"
    · rw [h2, adjust_hard_base]
      decide
    rw [adjust_other d h1 h2]
    decide
  obtain ⟨hlo, hhi⟩ := randint_mem (adjust_for_difficulty d (1, 20)).1
    (adjust_for_difficulty d (1, 20)).2 seed hle
  refine ⟨randint (adjust_for_difficulty d (1, 20)).1
    (adjust_for_difficulty d (1, 20)).2 seed, hlo, hhi, ?_⟩
  show ((randint (adjust_for_difficulty d (1, 20)).1
      (adjust_for_difficulty d (1, 20)).2 seed ^ 2 : ℤ) : ℚ) = _
  push_cast
  ring

/-- The claim C7 as written fails on a negative maximum: at difficulty
`"hard"` with base range `(1, -3)` the code truncates `-4.5` toward zero
to `-4`, while the claim's `floor(max * 1.5)` is `-5`. -/
theorem claim_C7_counterexample :
    adjust_for_difficulty "hard" (1, -3) ≠ (1, ⌊((-3 : ℚ) * (3 / 2))⌋) := by
  have hcast : ((-3 : ℤ) : ℚ) = -3 := by norm_num
  have hpy : pyInt (((-3 : ℤ) : ℚ) * (3 / 2)) = -4 := by
    rw [hcast, pyInt, if_neg (by norm_num), Int.ceil_eq_iff]
    norm_num
  have hfl : ⌊((-3 : ℚ) * (3 / 2))⌋ = -5 := by
    rw [Int.floor_eq_iff]
    norm_num
  have hadj : adjust_for_difficulty "hard" (1, -3) =
      (1, pyInt (((-3 : ℤ) : ℚ) * (3 / 2))) := by
    rw [adjust_for_difficulty, if_neg (by decide), if_pos rfl]
  rw [hadj, hpy, hfl]
  decide

/-- Claim C7 (amended): `int()` in the source truncates toward zero, so
the claim's floor formulas hold for every base range with a nonnegative
maximum (the two differ when `max * factor` is negative and fractional):
easy returns `(min, min(max, floor(max * 0.6)))`, hard returns
`(min, floor(max * 1.5))`, normal returns the range unchanged, and no
difficulty ever alters the minimum bound. -/
theorem claim_C7 (min_val max_val : ℤ) (h : 0 ≤ max_val) :
    adjust_for_difficulty "easy" (min_val, max_val) =
      (min_val, min max_val ⌊(max_val : ℚ) * (3 / 5)⌋) ∧
    adjust_for_difficulty "hard" (min_val, max_val) =
      (min_val, ⌊(max_val : ℚ) * (3 / 2)⌋) ∧
    adjust_for_difficulty "normal" (min_val, max_val) = (min_val, max_val) ∧
    ∀ d : String, (adjust_for_difficulty d (min_val, max_val)).1 = min_val := by
  have hq : (0 : ℚ) ≤ (max_val : ℚ) := by exact_mod_cast h
  refine ⟨?_, ?_, ?_, ?_⟩
  · simp [adjust_for_difficulty,
      pyInt_of_nonneg (mul_nonneg hq (by norm_num : (0 : ℚ) ≤ 3 / 5))]
  · simp [adjust_for_difficulty,
      pyInt_of_nonneg (mul_nonneg hq (by norm_num : (0 : ℚ) ≤ 3 / 2))]
  · simp [adjust_for_difficulty]
  · intro d
    by_cases h1 : d = "easy"
    · simp [adjust_for_difficulty, h1]
    by_cases h2 : d = "hard"
    · simp [adjust_for_difficulty, h1, h2]
    simp [adjust_for_difficulty, h1, h2]

/-- Witness for C7 at the base range `(1, 20)` of `SquareGenerator`. -/
theorem claim_C7_witness :
    adjust_for_difficulty "easy" (1, 20) =
      (1, min 20 ⌊((20 : ℤ) : ℚ) * (3 / 5)⌋) ∧
    adjust_for_difficulty "hard" (1, 20) = (1, ⌊((20 : ℤ) : ℚ) * (3 / 2)⌋) ∧
    adjust_for_difficulty "normal" (1, 20) = (1, 20) := by
  obtain ⟨h1, h2, h3, -⟩ := claim_C7 1 20 (by decide)
  exact ⟨h1, h2, h3⟩

/-- Claim C9: `create_specific_question` fails for every unconfigured
question type with the `ValueError` message naming the valid types, and
for a configured key returns that generator's question directly, with no
weighted selection. -/
theorem claim_C9 (question_type difficulty : String) (seed : ℕ)
    (fun_fact : Option String) :
    (question_type ∉ available_types →
      create_specific_question question_type difficulty seed fun_fact =
        Except.error (unknown_type_message question_type)) ∧
    (question_type ∈ available_types →
      (question_type = "square" ∧
        create_specific_question question_type difficulty seed fun_fact =
          Except.ok (squareGenerate difficulty seed fun_fact)) ∨
      (question_type = "square_root" ∧
        create_specific_question question_type difficulty seed fun_fact =
          Except.ok (squareRootGenerate difficulty seed))) := by
  constructor
  · intro h
    simp [create_specific_question, h]
  · intro h
    have hcases : question_type = "square" ∨ question_type = "square_root" := by
      simpa [available_types] using h
    rcases hcases with rfl | rfl
    · exact Or.inl ⟨rfl, by simp [create_specific_question, available_types]⟩
    · exact Or.inr ⟨rfl, by simp [create_specific_question, available_types]⟩

/-- Witness for C9: the `"bogus"` type of the claim is rejected with the
message naming the valid types, and a configured key dispatches to its
generator. -/
theorem claim_C9_witness :
    create_specific_question "bogus" "normal" 0 none =
      Except.error (unknown_type_message "bogus") ∧
    create_specific_question "square_root" "normal" 0 none =
      Except.ok (squareRootGenerate "normal" 0) := by
  constructor
  · exact (claim_C9 "bogus" "normal" 0 none).1 (by decide)
  · rcases (claim_C9 "square_root" "normal" 0 none).2 (by decide) with
      ⟨heq, -⟩ | ⟨-, h2⟩
    · exact absurd heq (by decide)
    · exact h2

/-- Claim C10: every difficulty string other than `"easy"` and `"hard"`
(misspelled or arbitrary, not only `"normal"`) is accepted and behaves
exactly as normal: the range adjustment returns the base range
unchanged, `SquareRootGenerator` precomputes the `1..50` perfect-square
list, and the difficulty multiplier defaults to `1.0`. -/
theorem claim_C10 (d : String) (base_range : ℤ × ℤ)
    (h1 : d ≠ "easy") (h2 : d ≠ "hard") :
    adjust_for_difficulty d base_range = base_range ∧
    perfect_squares d = (List.range' 1 50).map (fun i => i * i) ∧
    difficulty_multiplier d = 1 := by
  refine ⟨by simp [adjust_for_difficulty, h1, h2],
    by simp [perfect_squares, h1, h2, pow_two], ?_⟩
  by_cases h3 : d = "normal"
  · simp [difficulty_multiplier, h1, h2, h3]
  · simp [difficulty_multiplier, h1, h2, h3]

/-- Witness for C10 at the arbitrary difficulty string `"medium"`. -/
theorem claim_C10_witness :
    adjust_for_difficulty "medium" (1, 20) = (1, 20) ∧
    perfect_squares "medium" = (List.range' 1 50).map (fun i => i * i) ∧
    difficulty_multiplier "medium" = 1 :=
  claim_C10 "medium" (1, 20) (by decide) (by decide)
